import Mathlib

/-!
Shallow embedding of `src/TelevisionControl/base.py` (class `Television` and
the connect sequence of `TelevisionGUI.__init__`).

Modelling conventions:
* Protocol-level calls to the external Roku / AndroidTV client libraries are
  recorded in an output trace (`List ProtoCall`); the libraries themselves are
  external collaborators.
* Python exceptions are the inductive `PyError`; a method that can raise
  returns the post-state together with `Option PyError` (Python mutates the
  object in place up to the point of the raise).
* `self.roku` holds a `Roku(ip_address)` client object after a Roku connect.
  A `Roku` object is truthy even when constructed with `None`, so the handle
  is `Option (Option String)`: the outer layer is handle presence, the inner
  one the address the constructor received.  `self.android` only ever receives
  a real string address (a `None` address raises earlier, at the string
  concatenation in `connect`), so it is `Option String`.
* `self._muted` is Python `None`/`False`/`True`, i.e. `Option Bool`.
* The value the Android property query `get_properties_dict().get
  ("is_volume_muted")` would return is an environment parameter
  (`Option Bool`; `none` models a missing key).
* External failure modes of `connect` (the `Roku(...)` constructor raising,
  the ADB key setup raising, the `adb_connect()` handshake raising) are an
  environment record `ConnectEnv`.
-/

/-- Python exceptions that the embedded code can raise. -/
inductive PyError where
  | valueError (msg : String)
  | typeError (msg : String)
  | external (msg : String)
deriving Repr, DecidableEq

/-- One call to an external protocol client (Roku ECP client or
AndroidTVSync/ADB client), in the order the Python code issues them. -/
inductive ProtoCall where
  | rokuVolumeUp
  | rokuVolumeDown
  | rokuVolumeMute
  | rokuUp
  | rokuDown
  | rokuLeft
  | rokuRight
  | rokuSelect
  | rokuBack
  | androidAdbConnect
  | androidGetProps
  | androidMute
  | androidUp
  | androidDown
  | androidLeft
  | androidRight
  | androidEnter
  | androidBack
deriving Repr, DecidableEq

/-- The mutable state of a `Television` instance (`base.py`, lines 12-28). -/
structure Television where
  name : String
  operating_system : String
  roku : Option (Option String)
  android : Option String
  _muted : Option Bool
deriving Repr, DecidableEq

/-- External behaviour that a call to `Television.connect` can encounter. -/
structure ConnectEnv where
  rokuCtorFails : Option String
  adbSetupFails : Option String
  adbHandshakeFails : Option String
  androidMutedProp : Option Bool
deriving Repr, DecidableEq

/-- Result of a method that can raise: post-state, trace, raised exception. -/
structure EffResult where
  tv : Television
  calls : List ProtoCall
  err : Option PyError
deriving Repr, DecidableEq

/-- The `muted` property getter (`base.py`, lines 58-71).  Returns the value
read, the post-state, and the protocol calls issued.  `env` is what the
Android property query would return.  When the cache `_muted` is `None`,
a Roku handle triggers the volume-up/volume-down probe and caches `False`;
an Android handle queries the property dictionary and caches the result;
with no handle the cache stays `None` and `None` is returned. -/
def Television.muted (env : Option Bool) (tv : Television) :
    Option Bool × Television × List ProtoCall :=
  match tv._muted with
  | some v => (some v, tv, [])
  | none =>
    if tv.roku.isSome then
      (some false, { tv with _muted := some false },
        [ProtoCall.rokuVolumeUp, ProtoCall.rokuVolumeDown])
    else if tv.android.isSome then
      (env, { tv with _muted := env }, [ProtoCall.androidGetProps])
    else
      (none, tv, [])

/-- `toggle_mute` (`base.py`, lines 77-86): issue the protocol mute toggle
through whichever handle is live, then read `self.muted` (which may itself
probe) and overwrite the cache with the Python-truthiness negation of the
value read (`None` and `False` are falsy, so both flip to `True`). -/
def Television.toggle_mute (env : Option Bool) (tv : Television) :
    Television × List ProtoCall :=
  let c1 : List ProtoCall :=
    if tv.roku.isSome then [ProtoCall.rokuVolumeMute]
    else if tv.android.isSome then [ProtoCall.androidMute]
    else []
  let r := Television.muted env tv
  let tv3 :=
    if r.1 = some true then { r.2.1 with _muted := some false }
    else { r.2.1 with _muted := some true }
  (tv3, c1 ++ r.2.2)

/-- `mute` (`base.py`, lines 88-91): toggle only when `self.muted` is not
truthy, then force the cache to `True`. -/
def Television.mute (env : Option Bool) (tv : Television) :
    Television × List ProtoCall :=
  let r := Television.muted env tv
  if r.1 = some true then
    ({ r.2.1 with _muted := some true }, r.2.2)
  else
    let t := Television.toggle_mute env r.2.1
    ({ t.1 with _muted := some true }, r.2.2 ++ t.2)

/-- `unmute` (`base.py`, lines 93-96): toggle only when `self.muted` is
truthy, then force the cache to `False`. -/
def Television.unmute (env : Option Bool) (tv : Television) :
    Television × List ProtoCall :=
  let r := Television.muted env tv
  if r.1 = some true then
    let t := Television.toggle_mute env r.2.1
    ({ t.1 with _muted := some false }, r.2.2 ++ t.2)
  else
    ({ r.2.1 with _muted := some false }, r.2.2)

/-- `up` (`base.py`, lines 116-120). -/
def Television.up (tv : Television) : Television × List ProtoCall :=
  if tv.roku.isSome then (tv, [ProtoCall.rokuUp])
  else if tv.android.isSome then (tv, [ProtoCall.androidUp])
  else (tv, [])

/-- `down` (`base.py`, lines 110-114). -/
def Television.down (tv : Television) : Television × List ProtoCall :=
  if tv.roku.isSome then (tv, [ProtoCall.rokuDown])
  else if tv.android.isSome then (tv, [ProtoCall.androidDown])
  else (tv, [])

/-- `left` (`base.py`, lines 104-108). -/
def Television.left (tv : Television) : Television × List ProtoCall :=
  if tv.roku.isSome then (tv, [ProtoCall.rokuLeft])
  else if tv.android.isSome then (tv, [ProtoCall.androidLeft])
  else (tv, [])

/-- `right` (`base.py`, lines 98-102). -/
def Television.right (tv : Television) : Television × List ProtoCall :=
  if tv.roku.isSome then (tv, [ProtoCall.rokuRight])
  else if tv.android.isSome then (tv, [ProtoCall.androidRight])
  else (tv, [])

/-- `select` (`base.py`, lines 122-127): `select` on the Roku client,
`enter` on the Android client. -/
def Television.select (tv : Television) : Television × List ProtoCall :=
  if tv.roku.isSome then (tv, [ProtoCall.rokuSelect])
  else if tv.android.isSome then (tv, [ProtoCall.androidEnter])
  else (tv, [])

/-- `back` (`base.py`, lines 129-133). -/
def Television.back (tv : Television) : Television × List ProtoCall :=
  if tv.roku.isSome then (tv, [ProtoCall.rokuBack])
  else if tv.android.isSome then (tv, [ProtoCall.androidBack])
  else (tv, [])

/-- Python `str.lower()` as the program uses it (on `operating_system`):
characterwise ASCII lowercasing. -/
def pyLower (s : String) : String := ⟨s.data.map Char.toLower⟩

/-- The exception raised by `self.muted(False)` at the end of `connect`
(`base.py`, line 56): `muted` is a property, so `self.muted` evaluates the
getter and the call operator is then applied to the returned value, which is
a `bool` (or `None`), neither of which is callable. -/
def callValueErr (v : Option Bool) : PyError :=
  match v with
  | some _ => PyError.typeError "bool object is not callable"
  | none => PyError.typeError "NoneType object is not callable"

/-- `connect` (`base.py`, lines 32-56).  Roku path: construct the Roku
client and store it.  Android path: run the `adb connect` subprocess (whose
exit status is ignored; a `None` address raises at the string concatenation
first), generate/load the signing keys, assign the `AndroidTVSync` client to
`self.android`, then perform the `adb_connect` handshake.  Both paths then
execute `self.muted(False)`, which evaluates the `muted` property getter
(possibly probing the device) and raises `TypeError` by calling the
resulting non-callable value. -/
def Television.connect (cenv : ConnectEnv) (ip_address : Option String)
    (tv : Television) : EffResult :=
  if pyLower tv.operating_system = "roku" then
    match cenv.rokuCtorFails with
    | some m => { tv := tv, calls := [], err := some (PyError.external m) }
    | none =>
      let tv1 := { tv with roku := some ip_address }
      let r := Television.muted cenv.androidMutedProp tv1
      { tv := r.2.1, calls := r.2.2, err := some (callValueErr r.1) }
  else if pyLower tv.operating_system = "android" then
    match ip_address with
    | none =>
      { tv := tv, calls := [],
        err := some (PyError.typeError "can only concatenate str to str") }
    | some ip =>
      match cenv.adbSetupFails with
      | some m => { tv := tv, calls := [], err := some (PyError.external m) }
      | none =>
        let tv1 := { tv with android := some ip }
        match cenv.adbHandshakeFails with
        | some m =>
          { tv := tv1, calls := [ProtoCall.androidAdbConnect],
            err := some (PyError.external m) }
        | none =>
          let r := Television.muted cenv.androidMutedProp tv1
          { tv := r.2.1, calls := ProtoCall.androidAdbConnect :: r.2.2,
            err := some (callValueErr r.1) }
  else
    let r := Television.muted cenv.androidMutedProp tv
    { tv := r.2.1, calls := r.2.2, err := some (callValueErr r.1) }

/-- `__init__` (`base.py`, lines 12-28): reject any operating system whose
lowercase form is neither "roku" nor "android" with a `ValueError` before any
field is set; otherwise initialise both handles and the mute cache to `None`
and, when a truthy (non-`None`, non-empty) address was passed, autoconnect.
An exception from `connect` propagates out of `__init__`, so no object
reaches the caller in that case. -/
def Television.init (cenv : ConnectEnv) (name operating_system : String)
    (ip_address : Option String) : Except PyError (Television × List ProtoCall) :=
  if pyLower operating_system = "roku" ∨ pyLower operating_system = "android" then
    let tv : Television :=
      { name := name, operating_system := operating_system,
        roku := none, android := none, _muted := none }
    match ip_address with
    | none => Except.ok (tv, [])
    | some ip =>
      if ip = "" then Except.ok (tv, [])
      else
        let r := Television.connect cenv (some ip) tv
        match r.err with
        | some e => Except.error e
        | none => Except.ok (r.tv, r.calls)
  else
    Except.error (PyError.valueError
      "Operating system must be Roku or Android. No other operating systems are currently supported.")

/-- The connect sequence of `TelevisionGUI.__init__` (`base.py`, lines
140-149): connect each already-constructed device in order, with no
exception handling, so the first raised exception aborts the whole
initialisation and the remaining devices are left untouched.  Each entry
carries the device, its external environment, and the address that
`os.getenv` resolved for it (`none` when the variable is unset). -/
def connectSeq : List (Television × ConnectEnv × Option String) →
    List Television × List ProtoCall × Option PyError
  | [] => ([], [], none)
  | (tv, cenv, ip) :: rest =>
    let r := Television.connect cenv ip tv
    match r.err with
    | some e => (r.tv :: rest.map (fun x => x.1), r.calls, some e)
    | none =>
      let s := connectSeq rest
      (r.tv :: s.1, r.calls ++ s.2.1, s.2.2)

/-- The single protocol command that `toggle_mute` sends through the live
handle (Roku mute button vs Android mute command). -/
def toggleCmd (tv : Television) : ProtoCall :=
  if tv.roku.isSome then ProtoCall.rokuVolumeMute else ProtoCall.androidMute

/-- A `ConnectEnv` in which every external step succeeds and the Android
muted property would read `false`. -/
def cenvOk : ConnectEnv :=
  { rokuCtorFails := none, adbSetupFails := none, adbHandshakeFails := none,
    androidMutedProp := some false }

/-- A `ConnectEnv` in which the ADB handshake (`adb_connect()`) raises. -/
def cenvHandshakeFail : ConnectEnv :=
  { rokuCtorFails := none, adbSetupFails := none,
    adbHandshakeFails := some "adb handshake failed",
    androidMutedProp := some false }

/-- A freshly constructed Roku device, as `Television("TopTV", "roku")`
leaves it. -/
def tvTopA : Television :=
  { name := "TopTV", operating_system := "roku",
    roku := none, android := none, _muted := none }

/-- A freshly constructed, never connected Roku device. -/
def tvDisc : Television :=
  { name := "DiscTV", operating_system := "roku",
    roku := none, android := none, _muted := none }

/-- A never connected Android device with a stale mute cache. -/
def tvDisc2 : Television :=
  { name := "DiscTV2", operating_system := "android",
    roku := none, android := none, _muted := some true }

/-- Device "A" of the C3 scenario: a Roku device awaiting connection. -/
def tvScenA : Television :=
  { name := "A", operating_system := "roku",
    roku := none, android := none, _muted := none }

/-- Device "B" of the C3 scenario: an Android device whose address
resolution will fail. -/
def tvScenB : Television :=
  { name := "B", operating_system := "android",
    roku := none, android := none, _muted := none }

/-- The C3 scenario: device A resolves to a reachable address, device B has
no address (its environment variable is unset, `os.getenv` returns `None`). -/
def scenarioAB : List (Television × ConnectEnv × Option String) :=
  [(tvScenA, cenvOk, some "10.0.0.2"), (tvScenB, cenvOk, none)]

/-- A connected Roku device whose mute cache is still unknown. -/
def tvRokuUnknown : Television :=
  { name := "R", operating_system := "roku",
    roku := some (some "10.0.0.5"), android := none, _muted := none }

/-- A connected Roku device with mute cache `false`. -/
def tvRokuFalse : Television :=
  { name := "R2", operating_system := "roku",
    roku := some (some "10.0.0.5"), android := none, _muted := some false }

/-- A connected Roku device with mute cache `true`. -/
def tvRokuTrue : Television :=
  { name := "R3", operating_system := "roku",
    roku := some (some "10.0.0.5"), android := none, _muted := some true }

/-- An Android device about to connect in the C5 counterexample. -/
def tvAnd0 : Television :=
  { name := "G", operating_system := "android",
    roku := none, android := none, _muted := none }

/-- A connected Android device with mute cache `false`. -/
def tvAndFalse : Television :=
  { name := "G2", operating_system := "android",
    roku := none, android := some "10.0.0.7", _muted := some false }

/-- C1: the claim says a successful `connect` leaves the OS-matching handle
populated and the cached mute state false.  The code cannot satisfy this:
`connect` ends with `self.muted(False)`, which evaluates the `muted`
property (populating the cache as a side effect) and then raises
`TypeError` by calling the returned bool, contradicting the code's own
comment ("the TV will not be muted") and the existing `muted` setter.
This theorem evaluates `connect` at a Roku device with a reachable
transport: the handle is populated and the cache is false as intended, but
the call raises instead of returning. -/
theorem C1_connect_success_path_raises :
    (Television.connect cenvOk (some "192.168.1.42") tvTopA).err =
      some (PyError.typeError "bool object is not callable") ∧
    (Television.connect cenvOk (some "192.168.1.42") tvTopA).tv.roku =
      some (some "192.168.1.42") ∧
    (Television.connect cenvOk (some "192.168.1.42") tvTopA).tv._muted = some false ∧
    (Television.connect cenvOk (some "192.168.1.42") tvTopA).calls =
      [ProtoCall.rokuVolumeUp, ProtoCall.rokuVolumeDown] := by
  decide

/-- C2 counterexample: on a never-connected device, `up`, `select` and
`mute` complete normally (no exception is raised; no `NotConnected` error
exists anywhere in the code) — `up` and `select` are silent no-ops and
`mute` silently sets the cache, so the claim that every command method
fails with a `NotConnected` precondition error is false. -/
theorem C2_counterexample :
    Television.up tvDisc = (tvDisc, []) ∧
    Television.select tvDisc = (tvDisc, []) ∧
    Television.mute none tvDisc = ({ tvDisc with _muted := some true }, []) := by
  decide

/-- C2 amended: on a device with both handles unset every command method
issues zero protocol calls and raises no error; navigation, select and back
leave the state unchanged, while `toggle_mute`/`mute`/`unmute` silently
overwrite the cached mute state instead of failing. -/
theorem C2_disconnected_commands (env : Option Bool) (tv : Television)
    (hr : tv.roku = none) (ha : tv.android = none) :
    Television.up tv = (tv, []) ∧ Television.down tv = (tv, []) ∧
    Television.left tv = (tv, []) ∧ Television.right tv = (tv, []) ∧
    Television.select tv = (tv, []) ∧ Television.back tv = (tv, []) ∧
    Television.toggle_mute env tv =
      ({ tv with _muted :=
          if tv._muted = some true then some false else some true }, []) ∧
    Television.mute env tv = ({ tv with _muted := some true }, []) ∧
    Television.unmute env tv = ({ tv with _muted := some false }, []) := by
  rcases hm : tv._muted with _ | b
  · simp [Television.up, Television.down, Television.left, Television.right,
      Television.select, Television.back, Television.toggle_mute,
      Television.mute, Television.unmute, Television.muted, hr, ha, hm]
  · cases b <;>
      simp [Television.up, Television.down, Television.left, Television.right,
        Television.select, Television.back, Television.toggle_mute,
        Television.mute, Television.unmute, Television.muted, hr, ha, hm]

/-- C2 witness: the amended statement evaluated on a concrete disconnected
device with a stale `true` mute cache. -/
theorem C2_witness :
    Television.mute none tvDisc2 = ({ tvDisc2 with _muted := some true }, []) ∧
    Television.unmute none tvDisc2 = ({ tvDisc2 with _muted := some false }, []) :=
  ⟨(C2_disconnected_commands none tvDisc2 rfl rfl).2.2.2.2.2.2.2.1,
   (C2_disconnected_commands none tvDisc2 rfl rfl).2.2.2.2.2.2.2.2⟩

/-- C3 counterexample: in the scenario [("A", Roku), ("B", Android)] with
device B's address resolution failing, the unguarded connect sequence of
`TelevisionGUI.__init__` raises an uncaught exception — initialization of
the remaining devices is aborted and the panel crashes, contradicting the
claim that the error is surfaced without aborting initialization. -/
theorem C3_counterexample :
    (connectSeq scenarioAB).2.2 =
      some (PyError.typeError "bool object is not callable") := by
  decide

/-- C3 amended: the connect sequence of `TelevisionGUI.__init__` has no
error handling, so the first exception aborts initialization.  In the
scenario, device A's connect raises even though its transport succeeded
(its Roku handle is populated and its cache forced to false, but
`self.muted(False)` raises `TypeError`), so initialization aborts at A and
device B is left untouched with both handles unset; dispatching `up` or
`select` to B afterwards silently no-ops with zero protocol calls rather
than raising `NotConnected`. -/
theorem C3_init_aborts_first_device :
    (connectSeq scenarioAB).2.2 =
      some (PyError.typeError "bool object is not callable") ∧
    (connectSeq scenarioAB).1 =
      [{ tvScenA with roku := some (some "10.0.0.2"), _muted := some false },
        tvScenB] ∧
    tvScenB.roku = none ∧ tvScenB.android = none ∧
    Television.up tvScenB = (tvScenB, []) ∧
    Television.select tvScenB = (tvScenB, []) := by
  decide

/-- C4 counterexample: on a connected Roku device whose cached mute state
is unknown, one `toggle_mute` call issues three protocol-level commands
(the mute toggle, then the volume-up/volume-down probe triggered by reading
`self.muted`), not exactly one. -/
theorem C4_counterexample :
    (Television.toggle_mute (some false) tvRokuUnknown).2 =
      [ProtoCall.rokuVolumeMute, ProtoCall.rokuVolumeUp,
        ProtoCall.rokuVolumeDown] ∧
    ¬ (Television.toggle_mute (some false) tvRokuUnknown).2.length = 1 := by
  decide

/-- C4 amended: when the prior cached mute state is known (false or true),
one `toggle_mute` call issues exactly one protocol command (the mute toggle
of the live handle) and leaves the cache equal to the negation of the prior
value; when the prior cache is unknown, the embedded property read first
resolves it with extra protocol calls (on Roku: volume-up then volume-down,
as the counterexample shows). -/
theorem C4_toggle_known_cache (env : Option Bool) (tv : Television) (b : Bool)
    (hc : tv.roku.isSome = true ∨ tv.android.isSome = true)
    (hm : tv._muted = some b) :
    Television.toggle_mute env tv =
      ({ tv with _muted := some (!b) }, [toggleCmd tv]) := by
  cases hr : tv.roku.isSome with
  | true =>
    cases b <;> simp [Television.toggle_mute, Television.muted, toggleCmd, hm, hr]
  | false =>
    have ha : tv.android.isSome = true := by
      rcases hc with hc | hc
      · rw [hr] at hc; cases hc
      · exact hc
    cases b <;>
      simp [Television.toggle_mute, Television.muted, toggleCmd, hm, hr, ha]

/-- C4 witness: the amended statement evaluated on a connected Roku device
with cached mute state false. -/
theorem C4_witness :
    Television.toggle_mute none tvRokuFalse =
      ({ tvRokuFalse with _muted := some true }, [ProtoCall.rokuVolumeMute]) :=
  C4_toggle_known_cache none tvRokuFalse false (Or.inl rfl) rfl

/-- C5 counterexample: for an Android device whose ADB handshake
(`adb_connect()`) fails, `connect` raises the raw underlying error (no
`ConnectionError` wrapper) and leaves the `android` handle populated,
because `self.android = AndroidTVSync(...)` is assigned before the
handshake is attempted — partial connection state is left behind,
contradicting the claim that both handles remain unset. -/
theorem C5_counterexample :
    (Television.connect cenvHandshakeFail (some "10.0.0.7") tvAnd0).err =
      some (PyError.external "adb handshake failed") ∧
    (Television.connect cenvHandshakeFail (some "10.0.0.7") tvAnd0).tv.android =
      some "10.0.0.7" := by
  decide

/-- C5 amended: when the ADB handshake fails during an Android `connect`,
the underlying error propagates as-is and the `android` handle has already
been populated with the session object, leaving partial connection state. -/
theorem C5_handshake_partial_state (tv : Television) (ip m : String)
    (hos : pyLower tv.operating_system = "android") :
    Television.connect
        { rokuCtorFails := none, adbSetupFails := none,
          adbHandshakeFails := some m, androidMutedProp := none }
        (some ip) tv =
      { tv := { tv with android := some ip },
        calls := [ProtoCall.androidAdbConnect],
        err := some (PyError.external m) } := by
  have hne : ¬ pyLower tv.operating_system = "roku" := by
    rw [hos]; decide
  simp [Television.connect, hos, hne]

/-- C5 witness: the amended statement evaluated on a concrete Android
device. -/
theorem C5_witness :
    Television.connect
        { rokuCtorFails := none, adbSetupFails := none,
          adbHandshakeFails := some "adb handshake failed",
          androidMutedProp := none }
        (some "10.0.0.9") tvAnd0 =
      { tv := { tvAnd0 with android := some "10.0.0.9" },
        calls := [ProtoCall.androidAdbConnect],
        err := some (PyError.external "adb handshake failed") } :=
  C5_handshake_partial_state tvAnd0 "10.0.0.9" "adb handshake failed" rfl

/-- C6: on a connected device, `mute()` with cached state true issues zero
protocol calls and leaves the cache true; with cached state false it issues
exactly the single mute-toggle command of the live handle and leaves the
cache true; symmetrically for `unmute()`. -/
theorem C6_mute_unmute_idempotent (env : Option Bool) (tv : Television)
    (hc : tv.roku.isSome = true ∨ tv.android.isSome = true) :
    (tv._muted = some true →
      Television.mute env tv = ({ tv with _muted := some true }, [])) ∧
    (tv._muted = some false →
      Television.mute env tv =
        ({ tv with _muted := some true }, [toggleCmd tv])) ∧
    (tv._muted = some false →
      Television.unmute env tv = ({ tv with _muted := some false }, [])) ∧
    (tv._muted = some true →
      Television.unmute env tv =
        ({ tv with _muted := some false }, [toggleCmd tv])) := by
  cases hr : tv.roku.isSome with
  | true =>
    refine ⟨?_, ?_, ?_, ?_⟩ <;> intro hm <;>
      simp [Television.mute, Television.unmute, Television.toggle_mute,
        Television.muted, toggleCmd, hm, hr]
  | false =>
    have ha : tv.android.isSome = true := by
      rcases hc with hc | hc
      · rw [hr] at hc; cases hc
      · exact hc
    refine ⟨?_, ?_, ?_, ?_⟩ <;> intro hm <;>
      simp [Television.mute, Television.unmute, Television.toggle_mute,
        Television.muted, toggleCmd, hm, hr, ha]

/-- C6 witness: the statement evaluated on a connected Roku device with
cached mute state true. -/
theorem C6_witness :
    Television.mute none tvRokuTrue = ({ tvRokuTrue with _muted := some true }, []) ∧
    Television.unmute none tvRokuTrue =
      ({ tvRokuTrue with _muted := some false }, [ProtoCall.rokuVolumeMute]) :=
  ⟨(C6_mute_unmute_idempotent none tvRokuTrue (Or.inl rfl)).1 rfl,
   (C6_mute_unmute_idempotent none tvRokuTrue (Or.inl rfl)).2.2.2 rfl⟩

/-- C7: on a connected Roku device with unknown mute cache, reading the
`muted` property issues exactly one volume-up followed by one volume-down,
returns false and caches false; once the cache is non-unknown, reads return
the cached value with zero protocol calls. -/
theorem C7_roku_muted_probe (env : Option Bool) (tv : Television)
    (h : Option String) (hr : tv.roku = some h) :
    (tv._muted = none →
      Television.muted env tv =
        (some false, { tv with _muted := some false },
          [ProtoCall.rokuVolumeUp, ProtoCall.rokuVolumeDown])) ∧
    (∀ b : Bool, tv._muted = some b →
      Television.muted env tv = (some b, tv, [])) := by
  constructor
  · intro hm; simp [Television.muted, hm, hr]
  · intro b hm; simp [Television.muted, hm]

/-- C7 witness: the statement evaluated on a concrete connected Roku device
with unknown cache, and again after the cache has been filled. -/
theorem C7_witness :
    Television.muted none tvRokuUnknown =
      (some false, { tvRokuUnknown with _muted := some false },
        [ProtoCall.rokuVolumeUp, ProtoCall.rokuVolumeDown]) ∧
    Television.muted none { tvRokuUnknown with _muted := some false } =
      (some false, { tvRokuUnknown with _muted := some false }, []) :=
  ⟨(C7_roku_muted_probe none tvRokuUnknown (some "10.0.0.5") rfl).1 rfl,
   (C7_roku_muted_probe none { tvRokuUnknown with _muted := some false }
      (some "10.0.0.5") rfl).2 false rfl⟩

/-- C8: `select()` issues exactly the Roku `select` call on a Roku-backed
device and exactly the Android `enter` call on an Android-backed device. -/
theorem C8_select_mapping (tv : Television) :
    (tv.roku.isSome = true →
      Television.select tv = (tv, [ProtoCall.rokuSelect])) ∧
    (tv.roku = none → tv.android.isSome = true →
      Television.select tv = (tv, [ProtoCall.androidEnter])) := by
  constructor
  · intro h; simp [Television.select, h]
  · intro h1 h2; simp [Television.select, h1, h2]

/-- C8 witness: the statement evaluated on a connected Roku device and a
connected Android device. -/
theorem C8_witness :
    Television.select tvRokuFalse = (tvRokuFalse, [ProtoCall.rokuSelect]) ∧
    Television.select tvAndFalse = (tvAndFalse, [ProtoCall.androidEnter]) :=
  ⟨(C8_select_mapping tvRokuFalse).1 rfl, (C8_select_mapping tvAndFalse).2 rfl rfl⟩

/-- C9: for every name, address and operating-system string whose lowercase
form is neither "roku" nor "android", construction fails immediately with
the `ValueError` (the `InvalidConfiguration` error of the specification)
and no object — hence no connected session — is produced. -/
theorem C9_invalid_os (cenv : ConnectEnv) (name os : String) (ip : Option String)
    (h1 : pyLower os ≠ "roku") (h2 : pyLower os ≠ "android") :
    Television.init cenv name os ip =
      Except.error (PyError.valueError
        "Operating system must be Roku or Android. No other operating systems are currently supported.") := by
  simp [Television.init, h1, h2]

/-- C9 witness: construction with operating system "WebOS" fails. -/
theorem C9_witness :
    Television.init cenvOk "GameTV" "WebOS" none =
      Except.error (PyError.valueError
        "Operating system must be Roku or Android. No other operating systems are currently supported.") :=
  C9_invalid_os cenvOk "GameTV" "WebOS" none (by decide) (by decide)

/-- C10: in every state, each of `up`, `down`, `left`, `right`, `select`
and `back` leaves every field of the `Television` unchanged. -/
theorem C10_navigation_frame (tv : Television) :
    (Television.up tv).1 = tv ∧ (Television.down tv).1 = tv ∧
    (Television.left tv).1 = tv ∧ (Television.right tv).1 = tv ∧
    (Television.select tv).1 = tv ∧ (Television.back tv).1 = tv := by
  cases h1 : tv.roku.isSome <;> cases h2 : tv.android.isSome <;>
    simp [Television.up, Television.down, Television.left, Television.right,
      Television.select, Television.back, h1, h2]
